import Mathlib

/-
Verification development for the OpenSpec TUI editor
(src/openspec_tui/__init__.py).

The program is shallowly embedded: Python format-string templates become
lists of literal/slot parts, `str.format` becomes `pyFormat` (erroring on a
missing key exactly as Python raises `KeyError`), the editor session and its
save routine become pure functions over an explicit filesystem-operation
trace, and the catalog scan becomes a fold over an explicit directory
listing.  Machine-level concerns (event loop, widget toolkit) are out of
scope, matching the specification's external-collaborator boundary.
-/

namespace OpenSpecTUI

/-- A piece of a Python format string: either literal text or a named
replacement field such as `\x7bname\x7d`. -/
inductive FPart
  | lit (s : String)
  | slot (k : String)
deriving DecidableEq

/-- A Python format string, split at its replacement fields.  The doubled
braces that Python renders as single literal braces appear here as the
rendered literal text. -/
abbrev Tmpl := List FPart

/-- `str.format(**params)`: substitute every replacement field, scanning left
to right; a referenced key absent from `params` raises `KeyError`, modelled
as `Except.error` carrying the missing key.  Extra unused params are
ignored, as in Python. -/
def pyFormat (ps : List (String × String)) : Tmpl → Except String String
  | [] => .ok ""
  | .lit s :: rest => (pyFormat ps rest).map (fun r => s ++ r)
  | .slot k :: rest =>
      match ps.lookup k with
      | some v => (pyFormat ps rest).map (fun r => v ++ r)
      | none => .error k

/-- A run of `n` dash characters (used for markdown rules and table
separators in the templates). -/
def dashRun (n : Nat) : String := String.mk (List.replicate n '-')

/-- The `|------|--------|------------|` markdown table separator of the
proposal template. -/
def riskTableSep : String :=
  "|" ++ dashRun 6 ++ "|" ++ dashRun 8 ++ "|" ++ dashRun 12 ++ "|"

/-- PROPOSAL_TEMPLATE from the source, split at its single `name` slot. -/
def PROPOSAL_TEMPLATE : Tmpl :=
  [.lit "# Proposal: ", .slot "name", .lit ("

## Overview

[1-2 paragraph summary of what this change does and why it matters]

## Problem Statement

[Describe the problem or need this change addresses]

**Current State:**
[What exists today and its limitations]

**Pain Points:**
- [Pain point 1]
- [Pain point 2]
- [Pain point 3]

## Proposed Solution

[High-level description of the solution]

**Key Changes:**
- [Major change 1]
- [Major change 2]
- [Major change 3]

## Scope

**In Scope:**
- [What this change includes]

**Out of Scope:**
- [What this deliberately excludes]

## Success Criteria

**This change is successful when:**
- [ ] [Measurable criterion 1]
- [ ] [Measurable criterion 2]

**Metrics to track:**
- [Metric 1]: Target [value]

## Timeline

**Estimated effort:** [X days/weeks]

## Risks & Mitigation

| Risk | Impact | Mitigation |
" ++ riskTableSep ++ "
| [Risk 1] | High/Med/Low | [How to address] |
")]

/-- TASKS_TEMPLATE from the source, split at its single `name` slot. -/
def TASKS_TEMPLATE : Tmpl :=
  [.lit "# Implementation Tasks: ", .slot "name", .lit ("

## Overview

[Brief summary of the implementation approach]

" ++ dashRun 3 ++ "

## 1. [Phase/Component Name]

**Goal:** [What this phase accomplishes]

- [ ] **1.1** [Specific task]
  - Files: `path/to/file.ts`
  - Details: [Any specific implementation notes]
  - Acceptance: [How to verify completion]

" ++ dashRun 3 ++ "

## 2. Testing & Validation

**Goal:** Ensure all requirements are met

- [ ] **2.1** Write unit tests
  - Coverage: [Specific scenarios]
  - Files: `path/to/test.spec.ts`
")]

/-- SPEC_TEMPLATE from the source; it references `feature_area` (twice) and
`name`, with `feature_area` as the leftmost replacement field. -/
def SPEC_TEMPLATE : Tmpl :=
  [.lit "# ", .slot "feature_area", .lit " Specification Delta

> **Note:** This is a spec delta for the `", .slot "name", .lit "` change.
> It will be merged into `openspec/specs/", .slot "feature_area",
   .lit ("/spec.md` after approval.

" ++ dashRun 3 ++ "

## ADDED Requirements

### Requirement: [Requirement Name]

The system SHALL [action or behavior].

#### Scenario: [Scenario Name]

- **GIVEN** [precondition]
- **WHEN** [action or trigger]
- **THEN** [expected outcome]

**Acceptance Criteria:**
- [ ] [Testable criterion 1]

**Priority:** P0 / P1 / P2

" ++ dashRun 3 ++ "

## MODIFIED Requirements

[Leave empty if no modifications]

" ++ dashRun 3 ++ "

## REMOVED Requirements

[Leave empty if no removals]
")]

/-- DESIGN_TEMPLATE from the source, split at its single `name` slot; the
source's doubled braces around the JSON example render as the single literal
braces kept here. -/
def DESIGN_TEMPLATE : Tmpl :=
  [.lit "# Design Document: ", .slot "name", .lit ("

## Technical Overview

[High-level technical summary of the solution]

" ++ dashRun 3 ++ "

## Architecture

### System Architecture

[Diagram or description of how components interact]

### Components

**Component 1: [Name]**
- **Purpose:** [What it does]
- **Responsibilities:** [Key functions]

" ++ dashRun 3 ++ "

## Data Model

### Database Schema Changes

[Describe schema changes]

" ++ dashRun 3 ++ "

## API Design

### New Endpoints

**POST /api/v1/[resource]**

Request:
```json
\x7b
  \"field1\": \"string\"
\x7d
```

" ++ dashRun 3 ++ "

## Security Considerations

[Security requirements and measures]

" ++ dashRun 3 ++ "

## Performance Considerations

**Expected Load:**
- Concurrent users: [Number]
- Requests per second: [Number]
")]

/-- The change-metadata dictionary built by `NewChangeScreen.create_change`.
`include_design` is `Option Bool` because `_init_files` reads it with
`change_data.get("include_design", False)`, so the key may be absent. -/
structure ChangeData where
  name : String
  feature_area : String
  author : String
  include_design : Option Bool
  created_at : String
deriving DecidableEq

/-- `str.replace("-", " ")` on the underlying characters. -/
def pyReplaceDashAux : List Char → List Char
  | [] => []
  | c :: rest => (if c = '-' then ' ' else c) :: pyReplaceDashAux rest

/-- Python `name.replace("-", " ")`. -/
def pyReplaceDash (s : String) : String := ⟨pyReplaceDashAux s.data⟩

/-- `str.title()` on the underlying characters: a letter is uppercased when
the previous character is not a letter and lowercased otherwise (ASCII model
of Python's cased-character rule; every name this program handles is ASCII). -/
def pyTitleAux : Bool → List Char → List Char
  | _, [] => []
  | prev, c :: rest =>
      (if prev then c.toLower else c.toUpper) :: pyTitleAux c.isAlpha rest

/-- Python `s.title()` (ASCII model). -/
def pyTitle (s : String) : String := ⟨pyTitleAux false s.data⟩

/-- `EditorScreen._init_files`: the dict of initial buffer texts, keyed by
the source's strings "proposal"/"tasks"/"spec"/"design" (the spec's roles
Proposal/Tasks/SpecDelta/Design), in insertion order.  A `KeyError` raised
by `.format` would propagate, hence the `Except`. -/
def initFiles (d : ChangeData) : Except String (List (String × String)) := do
  let p ← pyFormat [("name", pyTitle (pyReplaceDash d.name))] PROPOSAL_TEMPLATE
  let t ← pyFormat [("name", pyTitle (pyReplaceDash d.name))] TASKS_TEMPLATE
  let s ← pyFormat [("name", d.name), ("feature_area", d.feature_area)] SPEC_TEMPLATE
  let base := [("proposal", p), ("tasks", t), ("spec", s)]
  if d.include_design.getD false then
    let dd ← pyFormat [("name", pyTitle (pyReplaceDash d.name))] DESIGN_TEMPLATE
    return base ++ [("design", dd)]
  else
    return base

/-- JSON values, to the depth this program uses them (the JSON codec itself
is an external collaborator; `json.dump`/`json.load` round-trip a value
unchanged, so files store the value, not its text). -/
inductive Json
  | str (s : String)
  | bool (b : Bool)
  | obj (kvs : List (String × Json))

/-- `json.dump(change_data)`: the metadata dict in its insertion order; an
absent `include_design` key is simply not written. -/
def encodeChangeData (d : ChangeData) : Json :=
  .obj ([("name", .str d.name), ("feature_area", .str d.feature_area),
         ("author", .str d.author)]
    ++ (match d.include_design with
        | some b => [("include_design", Json.bool b)]
        | none => [])
    ++ [("created_at", .str d.created_at)])

/-- Dictionary lookup on a JSON value (`metadata[key]` / `metadata.get`). -/
def jLookup : Json → String → Option Json
  | .obj kvs, k => kvs.lookup k
  | _, _ => none

/-- Read back a `ChangeData` from a metadata JSON object. -/
def parseChangeData (j : Json) : Option ChangeData :=
  match jLookup j "name", jLookup j "feature_area",
        jLookup j "author", jLookup j "created_at" with
  | some (.str n), some (.str f), some (.str a), some (.str c) =>
      some { name := n, feature_area := f, author := a,
             include_design :=
               (match jLookup j "include_design" with
                | some (Json.bool b) => some b
                | _ => none),
             created_at := c }
  | _, _, _, _ => none

/-- The state of an `EditorScreen`: the change metadata and the `files`
dict produced by `_init_files`. -/
structure EditorState where
  change_data : ChangeData
  files : List (String × String)
deriving DecidableEq

/-- `EditorScreen.__init__`: store the metadata and run `_init_files`. -/
def mkEditor (d : ChangeData) : Except String EditorState :=
  (initFiles d).map (fun fs => ⟨d, fs⟩)

/-- A filesystem operation issued by `action_save`.  Paths are segment
lists. -/
inductive FsOp
  | mkdirOp (p : List String)
  | writeOp (p : List String)
deriving DecidableEq

/-- Content written to a file: the metadata JSON value or editor text. -/
inductive FileContent
  | jsonFile (j : Json)
  | textFile (t : String)

/-- A toast emitted through `self.notify(message, severity=...)`. -/
structure Notif where
  message : String
  severity : String
deriving DecidableEq

/-- `Path(f"openspec/changes/{change_data['name']}")`. -/
def basePath (d : ChangeData) : List String := ["openspec", "changes", d.name]

/-- `base_path / "specs" / change_data["feature_area"]`. -/
def specDirPath (d : ChangeData) : List String :=
  basePath d ++ ["specs", d.feature_area]

/-- POSIX rendering of a path, as `str(base_path)` would print it. -/
def pathStr (p : List String) : String := String.intercalate "/" p

/-- The filesystem operations `action_save` performs, in program order:
mkdir the base (parents, exist_ok), write metadata/proposal/tasks, mkdir the
per-feature spec directory, write the spec, and write the design iff
`"design" in self.files`. -/
def saveOps (st : EditorState) : List FsOp :=
  [.mkdirOp (basePath st.change_data),
   .writeOp (basePath st.change_data ++ ["metadata.json"]),
   .writeOp (basePath st.change_data ++ ["proposal.md"]),
   .writeOp (basePath st.change_data ++ ["tasks.md"]),
   .mkdirOp (specDirPath st.change_data),
   .writeOp (specDirPath st.change_data ++ ["spec.md"])]
  ++ (if (st.files.lookup "design").isSome then
        [.writeOp (basePath st.change_data ++ ["design.md"])]
      else [])

/-- The contents a fully successful save leaves on disk; `texts` gives the
current text of the `TextArea` widget for each files key (the widgets exist
for exactly the keys of `st.files`). -/
def savedWrites (st : EditorState) (texts : String → String) :
    List (List String × FileContent) :=
  [(basePath st.change_data ++ ["metadata.json"],
      .jsonFile (encodeChangeData st.change_data)),
   (basePath st.change_data ++ ["proposal.md"], .textFile (texts "proposal")),
   (basePath st.change_data ++ ["tasks.md"], .textFile (texts "tasks")),
   (specDirPath st.change_data ++ ["spec.md"], .textFile (texts "spec"))]
  ++ (if (st.files.lookup "design").isSome then
        [(basePath st.change_data ++ ["design.md"], .textFile (texts "design"))]
      else [])

/-- The toast the final line of `action_save` emits. -/
def saveNotif (st : EditorState) : Notif :=
  ⟨"✓ Saved to " ++ pathStr (basePath st.change_data), "information"⟩

/-- Outcome of one `action_save` run: `result` is `.error op` when
filesystem operation `op` raised `OSError` (the method has no handler, so
the exception escapes it); `performed` lists the operations that ran;
`notifs` the toasts emitted during the run. -/
structure SaveRun where
  result : Except FsOp (List (List String × FileContent))
  performed : List FsOp
  notifs : List Notif

/-- `EditorScreen.action_save`, parametrised by the set `failing` of
filesystem operations that raise.  Operations run in program order and the
first failing one aborts the method with its exception; only a fully
successful run reaches the closing `self.notify`. -/
def action_save (failing : List FsOp) (st : EditorState)
    (texts : String → String) : SaveRun :=
  match (saveOps st).find? (fun op => failing.contains op) with
  | some op =>
      { result := .error op,
        performed := (saveOps st).takeWhile (fun o => !failing.contains o),
        notifs := [] }
  | none =>
      { result := .ok (savedWrites st texts),
        performed := saveOps st,
        notifs := [saveNotif st] }

/-- Construct the editor for freshly created metadata and immediately save:
the flow behind the round-trip property. -/
def saveAfterCreate (failing : List FsOp) (d : ChangeData)
    (texts : String → String) : Except String SaveRun :=
  (mkEditor d).map (fun st => action_save failing st texts)

/-- Outcome of pressing Create in `NewChangeScreen`: either the modal emits
a toast and stays open (the handler returns without dismissing), or it
dismisses itself with the assembled metadata dict. -/
inductive ModalStep
  | stayOpen (n : Notif)
  | dismissed (d : ChangeData)
deriving DecidableEq

/-- The validation toast of `NewChangeScreen.create_change`. -/
def requiredFieldsMsg : String := "Change name and feature area are required"

/-- `NewChangeScreen.create_change`: read the four inputs (with
`datetime.now().isoformat()` passed in as `now`), reject when the name or
the feature area is the empty string (Python falsiness of `str`), otherwise
dismiss with the metadata dict. -/
def create_change (change_name feature_area author : String)
    (include_design : Bool) (now : String) : ModalStep :=
  if change_name = "" || feature_area = "" then
    .stayOpen ⟨requiredFieldsMsg, "error"⟩
  else
    .dismissed { name := change_name, feature_area := feature_area,
                 author := author, include_design := some include_design,
                 created_at := now }

/-- `NewChangeScreen.cancel`: `self.dismiss(None)` — the value the caller's
`push_screen_wait` resolves with is the cancellation sentinel. -/
def cancel_result : Option ChangeData := none

/-- `MainScreen.new_change` after its await resolves: `if result:` pushes an
`EditorScreen(result)`; a falsy result (the `None` sentinel) pushes
nothing. -/
def new_change (result : Option ChangeData) :
    Option (Except String EditorState) :=
  match result with
  | some d => some (mkEditor d)
  | none => none

/-- One entry of `changes_dir.iterdir()`.  `metadataFile` is `none` when
the subdirectory has no `metadata.json`; `some none` when the file exists
but `json.load` raises; `some (some j)` when it parses to `j`. -/
structure DirEntry where
  name : String
  isDir : Bool
  metadataFile : Option (Option Json)
deriving Inhabited

/-- An exception escaping the catalog scan: `json.load` failed, or the
`metadata["name"]` subscript failed (missing key or non-dict value). -/
inductive ScanError
  | jsonError (dir : String)
  | lookupError (dir : String)
deriving DecidableEq

/-- Python `str()` of a JSON value, to the depth the scan needs it: the
metadata this program writes always stores strings under `name` and
`feature_area`.  (For a nested dict Python would print its repr; no file
this program writes triggers that case.) -/
def pyStrJson : Json → String
  | .str s => s
  | .bool b => if b then "True" else "False"
  | .obj _ => "dict"

/-- One iteration of the `_load_recent_changes` loop: skip non-directories
and directories without a `metadata.json`; otherwise load the metadata and
produce the bullet line `• \x7bname\x7d (\x7bfeature_area or unknown\x7d)`. -/
def scanEntry (e : DirEntry) : Except ScanError (Option String) :=
  if e.isDir then
    match e.metadataFile with
    | none => .ok none
    | some none => .error (.jsonError e.name)
    | some (some j) =>
        match jLookup j "name" with
        | none => .error (.lookupError e.name)
        | some nameJ =>
            let fa := match jLookup j "feature_area" with
                      | some f => pyStrJson f
                      | none => "unknown"
            .ok (some ("• " ++ pyStrJson nameJ ++ " (" ++ fa ++ ")"))
  else .ok none

/-- Fold step accumulating the `changes` list of `_load_recent_changes`. -/
def scanStep (acc : List String) (e : DirEntry) :
    Except ScanError (List String) :=
  (scanEntry e).map (fun o => acc ++ o.toList)

/-- The `changes` list `_load_recent_changes` accumulates over
`changes_dir.iterdir()`, in enumeration order. -/
def catalogEntries (es : List DirEntry) : Except ScanError (List String) :=
  es.foldlM scanStep []

/-- `MainScreen._load_recent_changes`: `fs` is `none` when
`openspec/changes` does not exist (the method returns without touching the
label); otherwise the directory listing.  Returns the text the
`#recent_changes` label is updated with, or `none` when the label is left
untouched (no directory, or an empty `changes` list). -/
def load_recent_changes (fs : Option (List DirEntry)) :
    Except ScanError (Option String) :=
  match fs with
  | none => .ok none
  | some es =>
      (catalogEntries es).map (fun changes =>
        if changes.isEmpty then none
        else some (String.intercalate "\n" (changes.take 10)))

/-- `MainScreen.list_changes`: counts every entry of
`changes_dir.iterdir()` (it never opens a metadata file, so it cannot
raise once the listing is obtained). -/
def list_changes (fs : Option (List DirEntry)) : Notif :=
  match fs with
  | none => ⟨"No changes directory found. Create a change first!", "warning"⟩
  | some es =>
      if es.isEmpty then ⟨"No changes found", "warning"⟩
      else ⟨"Found " ++ toString es.length ++ " change(s) in openspec/changes/",
            "information"⟩

/-- Claim C3 (confirmed): creating a session from metadata with
`include_design = false` yields buffers for exactly the keys
proposal/tasks/spec (the roles Proposal, Tasks, SpecDelta); with
`include_design = true`, exactly proposal/tasks/spec/design. -/
theorem claim3_role_set (d : ChangeData) :
    (d.include_design = some false →
      (initFiles d).map (List.map Prod.fst) = .ok ["proposal", "tasks", "spec"])
    ∧ (d.include_design = some true →
      (initFiles d).map (List.map Prod.fst)
        = .ok ["proposal", "tasks", "spec", "design"]) := by
  obtain ⟨n, f, a, incl, c⟩ := d
  exact ⟨fun h => by cases h; rfl, fun h => by cases h; rfl⟩

def dRolesOff : ChangeData :=
  ⟨"add-user-profile", "auth", "Ann", some false, "2025-01-01T00:00:00"⟩

def dRolesOn : ChangeData :=
  ⟨"add-user-profile", "auth", "Ann", some true, "2025-01-01T00:00:00"⟩

theorem claim3_role_set_witness :
    (dRolesOff.include_design = some false
      ∧ (initFiles dRolesOff).map (List.map Prod.fst)
          = .ok ["proposal", "tasks", "spec"])
    ∧ (dRolesOn.include_design = some true
      ∧ (initFiles dRolesOn).map (List.map Prod.fst)
          = .ok ["proposal", "tasks", "spec", "design"]) :=
  ⟨⟨rfl, (claim3_role_set dRolesOff).1 rfl⟩,
   ⟨rfl, (claim3_role_set dRolesOn).2 rfl⟩⟩

/-- Claim C4 (confirmed): instantiating the spec template with a parameter
mapping that supplies `name` but no `feature_area` fails with missing slot
`feature_area` (Python raises `KeyError`); no text with an unfilled slot is
returned. -/
theorem claim4_missing_slot (ps : List (String × String)) (v : String)
    (hname : ps.lookup "name" = some v)
    (hfa : ps.lookup "feature_area" = none) :
    pyFormat ps SPEC_TEMPLATE = .error "feature_area" := by
  simp [pyFormat, SPEC_TEMPLATE, hfa, Except.map]

theorem claim4_missing_slot_witness :
    ([("name", "add-user-profile")] : List (String × String)).lookup "name"
        = some "add-user-profile"
    ∧ ([("name", "add-user-profile")] : List (String × String)).lookup
        "feature_area" = none
    ∧ pyFormat [("name", "add-user-profile")] SPEC_TEMPLATE
        = .error "feature_area" :=
  ⟨by decide, by decide,
   claim4_missing_slot _ "add-user-profile" (by decide) (by decide)⟩

/-- Claim C5 (confirmed): the Proposal, Tasks and (when present) Design
buffers are their templates instantiated with the hyphen-to-space,
title-cased name, while the SpecDelta buffer is instantiated with the raw
name and the raw feature area. -/
theorem claim5_name_transform (d : ChangeData) :
    ((initFiles d).map (fun fs => fs.lookup "proposal")
      = .ok (pyFormat [("name", pyTitle (pyReplaceDash d.name))]
              PROPOSAL_TEMPLATE).toOption)
    ∧ ((initFiles d).map (fun fs => fs.lookup "tasks")
      = .ok (pyFormat [("name", pyTitle (pyReplaceDash d.name))]
              TASKS_TEMPLATE).toOption)
    ∧ ((initFiles d).map (fun fs => fs.lookup "spec")
      = .ok (pyFormat [("name", d.name), ("feature_area", d.feature_area)]
              SPEC_TEMPLATE).toOption)
    ∧ (d.include_design.getD false = true →
        (initFiles d).map (fun fs => fs.lookup "design")
          = .ok (pyFormat [("name", pyTitle (pyReplaceDash d.name))]
                  DESIGN_TEMPLATE).toOption) := by
  obtain ⟨n, f, a, incl, c⟩ := d
  match incl with
  | none => exact ⟨rfl, rfl, rfl, fun h => nomatch h⟩
  | some false => exact ⟨rfl, rfl, rfl, fun h => nomatch h⟩
  | some true => exact ⟨rfl, rfl, rfl, fun _ => rfl⟩

def dTitled : ChangeData :=
  ⟨"add-user-profile", "auth", "Ann", some true, "2025-01-01T00:00:00"⟩

theorem claim5_name_transform_witness :
    pyTitle (pyReplaceDash "add-user-profile") = "Add User Profile"
    ∧ dTitled.include_design.getD false = true
    ∧ (initFiles dTitled).map (fun fs => fs.lookup "design")
        = .ok (pyFormat [("name", pyTitle (pyReplaceDash dTitled.name))]
                DESIGN_TEMPLATE).toOption :=
  ⟨by decide, rfl, (claim5_name_transform dTitled).2.2.2 rfl⟩

/-- Claim C6 (confirmed): with a blank change name or blank feature area,
Create emits an error toast and the modal stays open producing no metadata;
a blank author does not block creation. -/
theorem claim6_validation (change_name feature_area author now : String)
    (include_design : Bool) :
    ((change_name = "" ∨ feature_area = "") →
      create_change change_name feature_area author include_design now
        = .stayOpen ⟨requiredFieldsMsg, "error"⟩)
    ∧ (change_name ≠ "" → feature_area ≠ "" →
      create_change change_name feature_area "" include_design now
        = .dismissed ⟨change_name, feature_area, "", some include_design,
            now⟩) := by
  constructor
  · rintro (h | h) <;> simp [create_change, h]
  · intro h1 h2
    simp [create_change, h1, h2]

theorem claim6_validation_witness :
    (("" : String) = "" ∨ ("auth" : String) = "")
    ∧ create_change "" "auth" "Ann" true "2025-01-01T00:00:00"
        = .stayOpen ⟨requiredFieldsMsg, "error"⟩
    ∧ create_change "add-user-profile" "auth" "" true "2025-01-01T00:00:00"
        = .dismissed ⟨"add-user-profile", "auth", "", some true,
            "2025-01-01T00:00:00"⟩ :=
  ⟨Or.inl rfl,
   (claim6_validation "" "auth" "Ann" "2025-01-01T00:00:00" true).1
     (Or.inl rfl),
   (claim6_validation "add-user-profile" "auth" "Ann" "2025-01-01T00:00:00"
     true).2 (by decide) (by decide)⟩

/-- Claim C7 (confirmed): dismissing the creation modal with Cancel resolves
the caller's await with the `None` sentinel, and `new_change` then pushes no
editor screen, so no document session is created. -/
theorem claim7_cancel_no_session :
    cancel_result = none ∧ new_change cancel_result = none :=
  ⟨rfl, rfl⟩

/-- Claim C10 (confirmed): a metadata mapping with the `include_design` key
entirely absent is treated as `false`: buffer keys are exactly
proposal/tasks/spec and no error is raised. -/
theorem claim10_design_default (d : ChangeData)
    (h : d.include_design = none) :
    (initFiles d).map (List.map Prod.fst)
      = .ok ["proposal", "tasks", "spec"] := by
  obtain ⟨n, f, a, incl, c⟩ := d
  cases h
  rfl

def dNoDesignKey : ChangeData :=
  ⟨"add-user-profile", "auth", "Ann", none, "2025-01-01T00:00:00"⟩

theorem claim10_design_default_witness :
    dNoDesignKey.include_design = none
    ∧ (initFiles dNoDesignKey).map (List.map Prod.fst)
        = .ok ["proposal", "tasks", "spec"] :=
  ⟨rfl, claim10_design_default dNoDesignKey rfl⟩

def dRoundTrip (a c : String) : ChangeData :=
  { name := "add-user-profile", feature_area := "auth", author := a,
    include_design := some true, created_at := c }

/-- Claim C2 (confirmed): for a session created with name
`add-user-profile`, feature area `auth` and `include_design = true` (any
author and creation time), a fault-free save writes exactly
`metadata.json`, `proposal.md`, `tasks.md`, `specs/auth/spec.md` and
`design.md` under `openspec/changes/add-user-profile/`, issues the two
parent-creating mkdirs, and re-parsing the written `metadata.json` yields
the original metadata. -/
theorem claim2_round_trip (a c : String) (texts : String → String) :
    ∃ run : SaveRun,
      saveAfterCreate [] (dRoundTrip a c) texts = .ok run
      ∧ (∃ ws, run.result = .ok ws
          ∧ ws.map Prod.fst =
              [["openspec", "changes", "add-user-profile", "metadata.json"],
               ["openspec", "changes", "add-user-profile", "proposal.md"],
               ["openspec", "changes", "add-user-profile", "tasks.md"],
               ["openspec", "changes", "add-user-profile", "specs", "auth",
                "spec.md"],
               ["openspec", "changes", "add-user-profile", "design.md"]]
          ∧ ws.lookup
              ["openspec", "changes", "add-user-profile", "metadata.json"]
              = some (.jsonFile (encodeChangeData (dRoundTrip a c))))
      ∧ FsOp.mkdirOp ["openspec", "changes", "add-user-profile"]
          ∈ run.performed
      ∧ FsOp.mkdirOp ["openspec", "changes", "add-user-profile", "specs",
          "auth"] ∈ run.performed
      ∧ parseChangeData (encodeChangeData (dRoundTrip a c))
          = some (dRoundTrip a c) := by
  refine ⟨_, rfl, ⟨_, rfl, ?_, ?_⟩, ?_, ?_, ?_⟩
  · rfl
  · rfl
  · exact List.mem_cons_self _ _
  · exact List.mem_cons_of_mem _ (List.mem_cons_of_mem _
      (List.mem_cons_of_mem _ (List.mem_cons_of_mem _
        (List.mem_cons_self _ _))))
  · rfl

/-- `scanEntry` skips a directory that has no metadata file. -/
theorem scanEntry_skip (e : DirEntry) (hdir : e.isDir = true)
    (hmeta : e.metadataFile = none) : scanEntry e = .ok none := by
  simp [scanEntry, hdir, hmeta]

/-- Inserting a metadata-less directory anywhere in the listing leaves the
accumulated `changes` fold unchanged. -/
theorem foldlM_scanStep_skip (e : DirEntry) (hdir : e.isDir = true)
    (hmeta : e.metadataFile = none) (pre post : List DirEntry) :
    ∀ acc, (pre ++ e :: post).foldlM scanStep acc
      = (pre ++ post).foldlM scanStep acc := by
  induction pre with
  | nil =>
      intro acc
      simp only [List.nil_append, List.foldlM]
      rw [show scanStep acc e = .ok acc from by
        simp [scanStep, scanEntry_skip e hdir hmeta, Except.map]]
      rfl
  | cons x xs ih =>
      intro acc
      simp only [List.cons_append, List.foldlM]
      cases scanStep acc x with
      | error e1 => rfl
      | ok v => exact ih v

/-- Claim C8 (confirmed): a subdirectory of the changes root lacking a
`metadata.json` is absent from the accumulated change listing and its
presence does not change the scan's outcome (in particular it raises no
error). -/
theorem claim8_catalog_skip (pre post : List DirEntry) (e : DirEntry)
    (hdir : e.isDir = true) (hmeta : e.metadataFile = none) :
    catalogEntries (pre ++ e :: post) = catalogEntries (pre ++ post) :=
  foldlM_scanStep_skip e hdir hmeta pre post []

def dirWithMeta : DirEntry :=
  ⟨"add-user-profile", true, some (some (Json.obj
     [("name", Json.str "add-user-profile"),
      ("feature_area", Json.str "auth")]))⟩

def dirForeign : DirEntry := ⟨"scratch", true, none⟩

theorem claim8_catalog_skip_witness :
    dirForeign.isDir = true ∧ dirForeign.metadataFile = none
    ∧ catalogEntries ([dirWithMeta] ++ dirForeign :: [])
        = catalogEntries ([dirWithMeta] ++ []) :=
  ⟨rfl, rfl, claim8_catalog_skip [dirWithMeta] [] dirForeign rfl rfl⟩

/-- Claim C9 (confirmed): the recent-changes label shows at most the first
10 catalog entries in enumeration order (`changes[:10]`), even when more
valid changes exist. -/
theorem claim9_first_ten (es : List DirEntry) (cs : List String)
    (h : catalogEntries es = .ok cs) :
    load_recent_changes (some es)
      = .ok (if cs.isEmpty then none
             else some (String.intercalate "\n" (cs.take 10)))
    ∧ (cs.take 10).length ≤ 10 := by
  constructor
  · simp [load_recent_changes, h, Except.map]
  · simp only [List.length_take]
    exact Nat.min_le_left _ _

theorem claim9_first_ten_witness :
    catalogEntries (List.replicate 12 dirWithMeta)
        = .ok (List.replicate 12 "• add-user-profile (auth)")
    ∧ (load_recent_changes (some (List.replicate 12 dirWithMeta))
        = .ok (if (List.replicate 12 "• add-user-profile (auth)").isEmpty
               then none
               else some (String.intercalate "\n"
                 ((List.replicate 12 "• add-user-profile (auth)").take 10)))
      ∧ ((List.replicate 12 "• add-user-profile (auth)").take 10).length
          ≤ 10) :=
  ⟨rfl, claim9_first_ten _ _ rfl⟩

def stSample : EditorState :=
  ⟨⟨"add-user-profile", "auth", "Ann", some true, "2025-01-01T00:00:00"⟩,
   [("proposal", "P"), ("tasks", "T"), ("spec", "S"), ("design", "D")]⟩

/-- Claim C1 (counterexample): it is false that every filesystem error
raised during save is surfaced as a notification with control returning to
the interactive loop: with a failing mkdir, `action_save` ends in an
uncaught error and emits no notification at all. -/
theorem claim1_counterexample :
    ¬ ∀ (st : EditorState) (failing : List FsOp) (texts : String → String),
        (action_save failing st texts).result.isOk = false →
          (action_save failing st texts).notifs ≠ [] := by
  intro h
  exact h stSample [FsOp.mkdirOp (basePath stSample.change_data)]
      (fun _ => "") (by decide) (by decide)

/-- A failed `scanStep` is exactly a failed `scanEntry`. -/
theorem scanStep_error (acc : List String) (x : DirEntry)
    (err : ScanError) :
    scanStep acc x = .error err ↔ scanEntry x = .error err := by
  cases hs : scanEntry x <;> simp [scanStep, hs, Except.map]

/-- An error escaping the catalog fold comes from some listed entry. -/
theorem catalog_error_source (es : List DirEntry) :
    ∀ (acc : List String) (err : ScanError),
      es.foldlM scanStep acc = .error err →
      ∃ e ∈ es, scanEntry e = .error err := by
  induction es with
  | nil =>
      intro acc err h
      exact Except.noConfusion h
  | cons x xs ih =>
      intro acc err h
      simp only [List.foldlM] at h
      cases hx : scanStep acc x with
      | error e1 =>
          rw [hx] at h
          have h2 : (Except.error e1 : Except ScanError (List String))
              = .error err := h
          injection h2 with h3
          subst h3
          exact ⟨x, List.mem_cons_self x xs, (scanStep_error acc x e1).1 hx⟩
      | ok v =>
          rw [hx] at h
          have h2 : xs.foldlM scanStep v = .error err := h
          obtain ⟨e, he, hse⟩ := ih v err h2
          exact ⟨e, List.mem_cons_of_mem x he, hse⟩

/-- A failing `scanEntry` can only come from a directory that has a
metadata file. -/
theorem scanEntry_error_source (x : DirEntry) (err : ScanError)
    (h : scanEntry x = .error err) :
    x.isDir = true ∧ x.metadataFile ≠ none := by
  by_cases hd : x.isDir = true
  · refine ⟨hd, fun hm => ?_⟩
    unfold scanEntry at h
    rw [if_pos hd, hm] at h
    exact Except.noConfusion h
  · unfold scanEntry at h
    rw [if_neg hd] at h
    exact Except.noConfusion h

/-- Claim C1 (amended, proved): a filesystem error during save propagates
out of `action_save`: the run ends in `.error` at one of the failing
operations and no notification is emitted (the session state itself is only
read, never modified, so a retry remains possible at the data level).
Likewise a catalog-scan error escapes the scan, and can only originate from
a subdirectory that does have a metadata file. -/
theorem claim1_errors_propagate :
    (∀ (st : EditorState) (failing : List FsOp) (texts : String → String)
        (op : FsOp),
        (action_save failing st texts).result = .error op →
          (action_save failing st texts).notifs = []
          ∧ failing.contains op = true)
    ∧ (∀ (es : List DirEntry) (err : ScanError),
        catalogEntries es = .error err →
          ∃ e ∈ es, e.isDir = true ∧ e.metadataFile ≠ none
            ∧ scanEntry e = .error err) := by
  constructor
  · intro st failing texts op h
    revert h
    unfold action_save
    cases hf : (saveOps st).find? (fun op => failing.contains op) with
    | none =>
        intro h
        exact absurd h (by simp)
    | some op1 =>
        intro h
        have h2 : (Except.error op1
            : Except FsOp (List (List String × FileContent)))
            = .error op := h
        injection h2 with h3
        subst h3
        exact ⟨rfl, List.find?_some hf⟩
  · intro es err h
    obtain ⟨e, he, hse⟩ := catalog_error_source es [] err h
    obtain ⟨hd, hm⟩ := scanEntry_error_source e err hse
    exact ⟨e, he, hd, hm, hse⟩

def dirBadMeta : DirEntry := ⟨"broken", true, some none⟩

theorem claim1_errors_propagate_witness :
    ((action_save
        [FsOp.writeOp ["openspec", "changes", "add-user-profile",
          "metadata.json"]] stSample (fun _ => "")).notifs = []
      ∧ [FsOp.writeOp ["openspec", "changes", "add-user-profile",
          "metadata.json"]].contains (FsOp.writeOp ["openspec", "changes",
          "add-user-profile", "metadata.json"]) = true)
    ∧ (∃ e ∈ [dirBadMeta], e.isDir = true ∧ e.metadataFile ≠ none
        ∧ scanEntry e = .error (.jsonError "broken")) :=
  ⟨claim1_errors_propagate.1 stSample
      [FsOp.writeOp ["openspec", "changes", "add-user-profile",
        "metadata.json"]] (fun _ => "")
      (FsOp.writeOp ["openspec", "changes", "add-user-profile",
        "metadata.json"]) rfl,
   claim1_errors_propagate.2 [dirBadMeta] (.jsonError "broken") rfl⟩

end OpenSpecTUI
